import Mathlib

/-!
Shallow embedding of `Stock_Analysis.py`, a PyQt/pandas application over three
tables (stocks, companies, index).  DataFrames are embedded as lists of records,
prices as rationals, possibly-missing columns (`High`, `Low`) as `Option ℚ`.

The in-place `pd.to_datetime` conversion of the `Date` columns (done by
`SectorPerformanceGUI.filter_data_by_sector_and_year` on the shared tables, and
by `MonthlyStockAnalysisGUI.__init__`) is modelled by the `DateVal` type: a
date value tagged either `raw` (as loaded from CSV) or `parsed` (a pandas
datetime).  `pd_to_datetime` re-tags while preserving the underlying calendar
date, mirroring that `pd.to_datetime` is the identity on an already-converted
column and a pure type conversion otherwise.
-/

/-- A calendar date, the value denoted by an entry of a `Date` column. -/
structure Date where
  year : Int
  month : Int
  day : Int
deriving DecidableEq

/-- An entry of a `Date` column: either the raw CSV value or a pandas
datetime obtained by `pd.to_datetime`.  Both denote the same calendar date. -/
inductive DateVal where
  | raw (d : Date)
  | parsed (d : Date)
deriving DecidableEq

/-- The calendar date denoted by a `Date`-column entry. -/
def DateVal.date : DateVal → Date
  | .raw d => d
  | .parsed d => d

/-- `pd.to_datetime` applied to one entry of a `Date` column: converts the
column to datetime, preserving the denoted calendar date; identity on an
already-converted entry. -/
def pd_to_datetime (v : DateVal) : DateVal := .parsed v.date

/-- A row of `stocks_df` (`datasets/sp500_stocks.csv`):
{Symbol, Date, Open, High, Low, Close}.  `High`/`Low` may be missing (NaN). -/
structure StockRow where
  symbol : String
  date : DateVal
  openP : ℚ
  high : Option ℚ
  low : Option ℚ
  close : ℚ
deriving DecidableEq

/-- A row of `companies_df` (`datasets/sp500_companies.csv`):
{Symbol, Sector, Shortname, Longname, Revenuegrowth}. -/
structure CompanyRow where
  symbol : String
  sector : String
  shortname : String
  longname : String
  revenuegrowth : ℚ
deriving DecidableEq

/-- A row of `index_df` (`datasets/sp500_index.csv`): {Date, S&P500}. -/
structure IndexRow where
  date : DateVal
  sp500 : ℚ
deriving DecidableEq

/-- The three shared tables held by the GUI objects (`self.stocks_df`,
`self.companies_df`, `self.index_df`). -/
structure AppState where
  stocks_df : List StockRow
  companies_df : List CompanyRow
  index_df : List IndexRow
deriving DecidableEq

/-! ## Python `int()` parsing, used by `validate_years`

CPython `int(s)` strips leading/trailing whitespace, accepts an optional sign,
then ASCII decimal digits with single underscores allowed between digits;
anything else raises `ValueError` (modelled as `none`). -/

/-- Strip leading and trailing whitespace, as CPython `int()` does. -/
def pyStrip (cs : List Char) : List Char :=
  ((cs.dropWhile Char.isWhitespace).reverse.dropWhile Char.isWhitespace).reverse

/-- Continue parsing a digit string after at least one digit was read:
digits, with single underscores allowed only between digits. -/
def pyDigitsAux : Nat → List Char → Option Nat
  | acc, [] => some acc
  | acc, '_' :: c :: rest =>
      if c.isDigit then pyDigitsAux (acc * 10 + (c.toNat - '0'.toNat)) rest else none
  | _, ['_'] => none
  | acc, c :: rest =>
      if c.isDigit then pyDigitsAux (acc * 10 + (c.toNat - '0'.toNat)) rest else none

/-- Parse an unsigned digit string (nonempty, leading digit). -/
def pyDigits : List Char → Option Nat
  | [] => none
  | c :: rest => if c.isDigit then pyDigitsAux (c.toNat - '0'.toNat) rest else none

/-- CPython `int(s)`: `some n` on success, `none` for `ValueError`. -/
def pyInt (s : String) : Option Int :=
  match pyStrip s.data with
  | '+' :: rest => (pyDigits rest).map (fun n => (n : Int))
  | '-' :: rest => (pyDigits rest).map (fun n => -(n : Int))
  | rest => (pyDigits rest).map (fun n => (n : Int))

/-! ## `SectorPerformanceGUI.validate_years` -/

/-- `SectorPerformanceGUI.validate_years`: returns an error message, or `""`
when validation succeeds.  The `try`/`except ValueError` around the two `int()`
calls is modelled by matching on `pyInt`. -/
def validate_years (from_year to_year : String) : String :=
  if from_year.length ≠ 4 ∨ to_year.length ≠ 4 then
    "'From Year' and 'To Year' must be 4-digit numbers."
  else
    match pyInt from_year, pyInt to_year with
    | some from_year_int, some to_year_int =>
      if ¬ (2014 ≤ from_year_int ∧ from_year_int ≤ 2024) ∨
         ¬ (2014 ≤ to_year_int ∧ to_year_int ≤ 2024) then
        "Years must be between 2014 and 2024."
      else if from_year_int > to_year_int then
        "'From Year' should be <= 'To Year'."
      else ""
    | _, _ => "Please enter valid 4-digit years."

/-! ## `SectorPerformanceGUI.filter_data_by_sector_and_year` -/

/-- `self.stocks_df["Date"] = pd.to_datetime(self.stocks_df["Date"])`:
the in-place conversion of the stocks table's `Date` column. -/
def convertStockDates (rows : List StockRow) : List StockRow :=
  rows.map (fun r => { r with date := pd_to_datetime r.date })

/-- `self.index_df["Date"] = pd.to_datetime(self.index_df["Date"])`. -/
def convertIndexDates (rows : List IndexRow) : List IndexRow :=
  rows.map (fun r => { r with date := pd_to_datetime r.date })

/-- A row of the sector view's `merged_df`: the stock columns plus `Sector`
and `Longname` brought in by the left merge (both NaN, i.e. `none`, when the
symbol has no company record).  The `Date` column has been converted, so it is
carried as a plain calendar date. -/
structure MergedRow where
  symbol : String
  date : Date
  openP : ℚ
  high : Option ℚ
  low : Option ℚ
  close : ℚ
  sector : Option String
  longname : Option String
deriving DecidableEq

/-- `pd.merge(stocks, companies[["Symbol","Sector","Longname"]], on="Symbol",
how="left")`: each stock row is paired with every matching company row; a
stock row with no match yields a single row with NaN `Sector`/`Longname`. -/
def leftJoinSC (stocks : List StockRow) (cs : List CompanyRow) : List MergedRow :=
  stocks.flatMap (fun r =>
    match cs.filter (fun c => c.symbol == r.symbol) with
    | [] => [⟨r.symbol, r.date.date, r.openP, r.high, r.low, r.close, none, none⟩]
    | cs2 => cs2.map (fun c =>
        ⟨r.symbol, r.date.date, r.openP, r.high, r.low, r.close, some c.sector, some c.longname⟩))

/-- Boolean "≤" on dates (lexicographic), the ascending key order used by
`groupby`'s sorted output. -/
def Date.leb (d e : Date) : Bool :=
  decide (d.year < e.year) ||
    (d.year == e.year &&
      (decide (d.month < e.month) || (d.month == e.month && decide (d.day ≤ e.day))))

/-- Mean of a list of values (`Series.mean`). -/
def listMean (xs : List ℚ) : ℚ := xs.sum / (xs.length : ℚ)

/-- `sector_df.groupby("Date")["Close"].mean()`: one entry per distinct date,
in ascending date order, holding the mean of the `Close` values of the rows
grouped under that date. -/
def groupbyDateMeanClose (rows : List MergedRow) : List (Date × ℚ) :=
  (((rows.map (fun m => m.date)).dedup).mergeSort Date.leb).map
    (fun d => (d, listMean ((rows.filter (fun m => m.date == d)).map (fun m => m.close))))

/-- The sector view's `merged_df`, built from the converted stocks table. -/
def merged_df (st : AppState) : List MergedRow :=
  leftJoinSC (convertStockDates st.stocks_df) st.companies_df

/-- The sector view's `sector_df`:
`merged_df[(merged_df["Sector"] == selected_sector) & date_mask]`. -/
def sector_df (st : AppState) (selected_sector : String) (from_year to_year : Int) :
    List MergedRow :=
  (merged_df st).filter (fun m =>
    (m.sector == some selected_sector) &&
      (decide (from_year ≤ m.date.year) && decide (m.date.year ≤ to_year)))

/-- The first series returned by `filter_data_by_sector_and_year`:
`sector_df.groupby("Date")["Close"].mean()`. -/
def sector_performance (st : AppState) (selected_sector : String) (from_year to_year : Int) :
    List (Date × ℚ) :=
  groupbyDateMeanClose (sector_df st selected_sector from_year to_year)

/-- The second series: `self.index_df[index_mask].set_index("Date")["S&P500"]`
(computed from the table after its in-place `Date` conversion). -/
def index_performance (st : AppState) (from_year to_year : Int) : List (Date × ℚ) :=
  ((convertIndexDates st.index_df).filter (fun r =>
      decide (from_year ≤ r.date.date.year) && decide (r.date.date.year ≤ to_year))).map
    (fun r => (r.date.date, r.sp500))

/-- `SectorPerformanceGUI.filter_data_by_sector_and_year`.  Returns the state
after the two in-place `Date` conversions, together with the two series. -/
def filter_data_by_sector_and_year (st : AppState) (selected_sector : String)
    (from_year to_year : Int) : AppState × List (Date × ℚ) × List (Date × ℚ) :=
  ({ st with
      stocks_df := convertStockDates st.stocks_df,
      index_df := convertIndexDates st.index_df },
   sector_performance st selected_sector from_year to_year,
   index_performance st from_year to_year)

/-- Outcome of one click of the sector view's Analyze button: either the
inline warning box, or a call to `plot_sector_analysis` with the two series. -/
inductive SectorOutcome where
  | inputError (msg : String)
  | plotted (sp ip : List (Date × ℚ)) (selected_sector : String) (from_year to_year : Int)
deriving DecidableEq

/-- Whether the outcome is a rendered chart. -/
def SectorOutcome.isPlot : SectorOutcome → Bool
  | .plotted _ _ _ _ _ => true
  | _ => false

/-- `SectorPerformanceGUI.perform_sector_analysis`: validates the year texts,
then unconditionally filters and plots (there is no emptiness check in this
view).  When validation passed, the two `int()` calls cannot fail, so their
results are read with a default that is never used. -/
def perform_sector_analysis (st : AppState) (selected_sector from_year to_year : String) :
    AppState × SectorOutcome :=
  if validate_years from_year to_year ≠ "" then
    (st, .inputError (validate_years from_year to_year))
  else
    let f := (pyInt from_year).getD 0
    let t := (pyInt to_year).getD 0
    let r := filter_data_by_sector_and_year st selected_sector f t
    (r.1, .plotted r.2.1 r.2.2 selected_sector f t)

/-! ## `RevenueGrowthAnalysisGUI` -/

/-- A row of the revenue view's `merged_df`: stock columns plus `Sector`,
`Shortname`, `Revenuegrowth` from the inner merge.  The `Date` column keeps
its `DateVal` tag because this view converts it only after the merge, on the
merged copy, leaving the shared tables untouched. -/
structure RGRow where
  symbol : String
  date : DateVal
  openP : ℚ
  high : Option ℚ
  low : Option ℚ
  close : ℚ
  sector : String
  shortname : String
  revenuegrowth : ℚ
deriving DecidableEq

/-- `pd.merge(stocks, companies[["Symbol","Sector","Shortname","Revenuegrowth"]],
on="Symbol")`: the default inner join, dropping stock rows without a company
record. -/
def innerJoinRG (stocks : List StockRow) (cs : List CompanyRow) : List RGRow :=
  stocks.flatMap (fun r =>
    (cs.filter (fun c => c.symbol == r.symbol)).map (fun c =>
      ⟨r.symbol, r.date, r.openP, r.high, r.low, r.close, c.sector, c.shortname, c.revenuegrowth⟩))

/-- `RevenueGrowthAnalysisGUI.merge_dataframes`: inner merge on `Symbol`,
convert the merged copy's `Date` column, add `Year = Date.dt.year`, and keep
the rows of the selected year. -/
def merge_dataframes (stocks : List StockRow) (cs : List CompanyRow) (selected_year : Int) :
    List RGRow :=
  (((innerJoinRG stocks cs).map (fun r => { r with date := pd_to_datetime r.date })).filter
    (fun r => r.date.date.year == selected_year))

/-- Outcome of one click of the revenue view's Analyze button. -/
inductive RevenueOutcome where
  | plotted (merged : List RGRow) (selected_year : Int)
  | noData (msg : String)
deriving DecidableEq

/-- Whether the outcome is the "No Data" warning box. -/
def RevenueOutcome.isNoData : RevenueOutcome → Bool
  | .noData _ => true
  | _ => false

/-- Whether the outcome is a rendered chart. -/
def RevenueOutcome.isPlot : RevenueOutcome → Bool
  | .plotted _ _ => true
  | _ => false

/-- `RevenueGrowthAnalysisGUI.perform_analysis`: plot when the merged frame is
nonempty, otherwise show the "No Data" warning. -/
def perform_analysis (stocks : List StockRow) (cs : List CompanyRow) (selected_year : Int) :
    RevenueOutcome :=
  let m := merge_dataframes stocks cs selected_year
  if m ≠ [] then .plotted m selected_year
  else .noData ("No data available for the year " ++ toString selected_year ++ ".")

/-! ## `MonthlyStockAnalysisGUI` and the module-level helpers -/

/-- `filter_stock_data`: resolve the company short name to
`companies_df[companies_df["Shortname"] == name]["Symbol"].values[0]` and
filter the stock rows to that symbol, month and year.  `.values[0]` on an
empty selection raises `IndexError`; that unhandled crash is modelled as
`none`. -/
def filter_stock_data (stock_df : List StockRow) (companies_df : List CompanyRow)
    (company_shortname : String) (month year : Int) : Option (List StockRow) :=
  match (companies_df.filter (fun c => c.shortname == company_shortname)).head? with
  | none => none
  | some c => some (stock_df.filter (fun r =>
      r.symbol == c.symbol &&
        (decide (r.date.date.month = month) && decide (r.date.date.year = year))))

/-- `Series.max` over a column with missing values: NaN entries are skipped;
all-NaN (or empty) yields NaN (`none`). -/
def colMax : List (Option ℚ) → Option ℚ
  | [] => none
  | none :: xs => colMax xs
  | some x :: xs =>
    match colMax xs with
    | none => some x
    | some y => some (max x y)

/-- `Series.min`, NaN-skipping like `colMax`. -/
def colMin : List (Option ℚ) → Option ℚ
  | [] => none
  | none :: xs => colMin xs
  | some x :: xs =>
    match colMin xs with
    | none => some x
    | some y => some (min x y)

/-- One chart annotation added by `fig.add_annotation` in
`add_price_annotations`: its x (a date), y (a price) and text. -/
structure PriceMark where
  x : DateVal
  y : ℚ
  text : String
deriving DecidableEq

/-- The first `if` block of `add_price_annotations`: when the `High` column is
not entirely null, one annotation at the date of
`filtered_stock["High"].idxmax()` (the first row attaining the max, NaN
skipped), with the max as its y value. -/
def high_mark (filtered_stock : List StockRow) (high_price : Option ℚ) : List PriceMark :=
  if filtered_stock.any (fun r => r.high.isSome) then
    match high_price, filtered_stock.find? (fun r => r.high == high_price) with
    | some m, some r => [⟨r.date, m, "Highest Price: " ++ toString m⟩]
    | _, _ => []
  else []

/-- The second `if` block of `add_price_annotations`: the `Low` annotation at
`idxmin`, when the `Low` column is not entirely null. -/
def low_mark (filtered_stock : List StockRow) (low_price : Option ℚ) : List PriceMark :=
  if filtered_stock.any (fun r => r.low.isSome) then
    match low_price, filtered_stock.find? (fun r => r.low == low_price) with
    | some m, some r => [⟨r.date, m, "Lowest Price: " ++ toString m⟩]
    | _, _ => []
  else []

/-- `add_price_annotations`: the list of annotations added to the figure, in
the order the two `fig.add_annotation` calls run. -/
def add_price_marks (filtered_stock : List StockRow) (high_price low_price : Option ℚ) :
    List PriceMark :=
  high_mark filtered_stock high_price ++ low_mark filtered_stock low_price

/-- The annotations of the figure built by `plot_stock_prices`, which computes
`high_price = filtered_stock["High"].max()` and
`low_price = filtered_stock["Low"].min()` and passes them to
`add_price_annotations`. -/
def plot_stock_prices_marks (filtered_stock : List StockRow) : List PriceMark :=
  add_price_marks filtered_stock
    (colMax (filtered_stock.map (fun r => r.high)))
    (colMin (filtered_stock.map (fun r => r.low)))

/-- Outcome of one click of the monthly view's Analyze button.  `crash` is the
unhandled `IndexError` escaping `filter_stock_data`. -/
inductive MonthlyOutcome where
  | plotted (filtered : List StockRow) (company_shortname : String) (month year : Int)
  | noData (msg : String)
  | crash
deriving DecidableEq

/-- Whether the outcome is the "No Data" warning box. -/
def MonthlyOutcome.isNoData : MonthlyOutcome → Bool
  | .noData _ => true
  | _ => false

/-- Whether the outcome is a rendered chart. -/
def MonthlyOutcome.isPlot : MonthlyOutcome → Bool
  | .plotted _ _ _ _ => true
  | _ => false

/-- `MonthlyStockAnalysisGUI.analyze_stock`: filter, then plot when nonempty,
else show the "No Data" warning. -/
def analyze_stock (stock_df : List StockRow) (companies_df : List CompanyRow)
    (company_shortname : String) (month year : Int) : MonthlyOutcome :=
  match filter_stock_data stock_df companies_df company_shortname month year with
  | none => .crash
  | some filtered =>
    if filtered ≠ [] then .plotted filtered company_shortname month year
    else .noData "Data available only until 02-2024"

/-! ## Definitions used only to state and prove the properties -/

/-- The single merged row a stock row contributes to the sector view's left
merge when company symbols are duplicate-free: the stock columns plus the
`Sector`/`Longname` of the unique matching company record, if any. -/
def mergeOf (cs : List CompanyRow) (r : StockRow) : MergedRow :=
  match cs.find? (fun c => c.symbol == r.symbol) with
  | some c =>
    ⟨r.symbol, r.date.date, r.openP, r.high, r.low, r.close, some c.sector, some c.longname⟩
  | none => ⟨r.symbol, r.date.date, r.openP, r.high, r.low, r.close, none, none⟩

/-- Whether a stock row belongs to the selected sector: its symbol's (unique)
company record carries that sector. -/
def stockRowInSector (cs : List CompanyRow) (selected_sector : String) (r : StockRow) : Bool :=
  match cs.find? (fun c => c.symbol == r.symbol) with
  | some c => c.sector == selected_sector
  | none => false

/-- Concrete data for witnesses: a technology company. -/
def wCompany : CompanyRow := ⟨"AAPL", "Technology", "Apple", "Apple Inc.", 1/10⟩

/-- Concrete data for witnesses: a stock row of that company. -/
def wStock1 : StockRow := ⟨"AAPL", .raw ⟨2020, 1, 2⟩, 10, some 12, some 9, 11⟩

/-- Concrete data for witnesses: a second stock row of that company, one
trading day later. -/
def wStock2 : StockRow := ⟨"AAPL", .raw ⟨2020, 1, 3⟩, 11, some 13, some 10, 12⟩

/-- Concrete data for witnesses: a stock row whose symbol has no company
record. -/
def wStock3 : StockRow := ⟨"MSFT", .raw ⟨2020, 1, 2⟩, 20, none, none, 21⟩

/-- Concrete data for witnesses: one index row. -/
def wIndex1 : IndexRow := ⟨.raw ⟨2020, 1, 2⟩, 3200⟩

/-- Concrete witness state: two listed stock rows, one unlisted one. -/
def wSt : AppState := ⟨[wStock1, wStock2, wStock3], [wCompany], [wIndex1]⟩

/-- Concrete witness state with the unlisted row in the middle. -/
def wSt3 : AppState := ⟨[wStock1, wStock3, wStock2], [wCompany], [wIndex1]⟩

/-! ## Helper lemmas -/

theorem pd_to_datetime_date (v : DateVal) : (pd_to_datetime v).date = v.date := rfl

theorem pd_to_datetime_idem (v : DateVal) :
    pd_to_datetime (pd_to_datetime v) = pd_to_datetime v := rfl

theorem convertStockDates_idem (l : List StockRow) :
    convertStockDates (convertStockDates l) = convertStockDates l := by
  simp only [convertStockDates, List.map_map]
  rfl

theorem convertIndexDates_idem (l : List IndexRow) :
    convertIndexDates (convertIndexDates l) = convertIndexDates l := by
  simp only [convertIndexDates, List.map_map]
  rfl

theorem head?_filter {α : Type} (p : α → Bool) (l : List α) :
    (l.filter p).head? = l.find? p := by
  induction l with
  | nil => rfl
  | cons a l ih => by_cases h : p a <;> simp [List.filter_cons, List.find?, h, ih]

theorem filter_symbol_nodup (cs : List CompanyRow) (s : String)
    (h : (cs.map (fun c => c.symbol)).Nodup) :
    cs.filter (fun c => c.symbol == s) = (cs.find? (fun c => c.symbol == s)).toList := by
  induction cs with
  | nil => rfl
  | cons c cs ih =>
    simp only [List.map_cons, List.nodup_cons, List.mem_map] at h
    by_cases hc : c.symbol = s
    · have htail : cs.filter (fun c' => c'.symbol == s) = [] := by
        rw [List.filter_eq_nil_iff]
        intro a ha
        simp only [beq_iff_eq]
        intro has
        exact h.1 ⟨a, ha, by rw [has, hc]⟩
      simp [List.filter_cons, List.find?, hc, htail]
    · have hcf : (c.symbol == s) = false := beq_eq_false_iff_ne.mpr hc
      simp [List.filter_cons, List.find?, hcf, ih h.2]

theorem mergeOf_date (cs : List CompanyRow) (r : StockRow) :
    (mergeOf cs r).date = r.date.date := by
  unfold mergeOf
  cases cs.find? (fun c => c.symbol == r.symbol) <;> rfl

theorem mergeOf_close (cs : List CompanyRow) (r : StockRow) :
    (mergeOf cs r).close = r.close := by
  unfold mergeOf
  cases cs.find? (fun c => c.symbol == r.symbol) <;> rfl

theorem sector_of_mergeOf (cs : List CompanyRow) (sel : String) (r : StockRow) :
    ((mergeOf cs r).sector == some sel) = stockRowInSector cs sel r := by
  unfold mergeOf stockRowInSector
  cases cs.find? (fun c => c.symbol == r.symbol) <;> rfl

theorem leftJoinSC_nodup (stocks : List StockRow) (cs : List CompanyRow)
    (h : (cs.map (fun c => c.symbol)).Nodup) :
    leftJoinSC stocks cs = stocks.map (mergeOf cs) := by
  induction stocks with
  | nil => rfl
  | cons r l ih =>
    have hsplit : leftJoinSC (r :: l) cs =
        (match cs.filter (fun c => c.symbol == r.symbol) with
         | [] => [⟨r.symbol, r.date.date, r.openP, r.high, r.low, r.close, none, none⟩]
         | cs2 => cs2.map (fun c =>
             ⟨r.symbol, r.date.date, r.openP, r.high, r.low, r.close,
               some c.sector, some c.longname⟩)) ++ leftJoinSC l cs := by
      simp [leftJoinSC]
    rw [hsplit, filter_symbol_nodup cs r.symbol h, ih]
    cases hf : cs.find? (fun c => c.symbol == r.symbol) <;>
      simp [mergeOf, hf, Option.toList]

theorem mem_groupbyDateMeanClose {rows : List MergedRow} {d : Date} {v : ℚ}
    (h : (d, v) ∈ groupbyDateMeanClose rows) :
    (∃ m ∈ rows, m.date = d) ∧
      v = listMean ((rows.filter (fun m => m.date == d)).map (fun m => m.close)) := by
  unfold groupbyDateMeanClose at h
  rcases List.mem_map.mp h with ⟨d', hd', heq⟩
  have h1 : d = d' := (congrArg Prod.fst heq).symm
  have hv : v = listMean ((rows.filter (fun m => m.date == d')).map (fun m => m.close)) :=
    (congrArg Prod.snd heq).symm
  subst h1
  refine ⟨?_, hv⟩
  rcases List.mem_map.mp (List.mem_dedup.mp (List.mem_mergeSort.mp hd')) with ⟨m, hm, hmd⟩
  exact ⟨m, hm, hmd⟩

theorem colMax_eq_none (xs : List (Option ℚ)) : colMax xs = none ↔ ∀ x ∈ xs, x = none := by
  induction xs with
  | nil => simp [colMax]
  | cons x xs ih =>
    cases x with
    | none => simp [colMax, ih]
    | some a =>
      simp only [colMax]
      cases h : colMax xs <;> simp

theorem colMax_spec (xs : List (Option ℚ)) (m : ℚ) (h : colMax xs = some m) :
    some m ∈ xs ∧ ∀ x ∈ xs, ∀ v, x = some v → v ≤ m := by
  induction xs generalizing m with
  | nil => cases h
  | cons x xs ih =>
    cases x with
    | none =>
      simp only [colMax] at h
      rcases ih m h with ⟨hmem, hbd⟩
      refine ⟨List.mem_cons_of_mem _ hmem, ?_⟩
      intro x hx v hv
      rcases List.mem_cons.mp hx with rfl | hx
      · cases hv
      · exact hbd x hx v hv
    | some a =>
      simp only [colMax] at h
      cases hx : colMax xs with
      | none =>
        rw [hx] at h
        injection h with h
        subst h
        refine ⟨List.mem_cons_self _ _, ?_⟩
        intro x hmx v hv
        rcases List.mem_cons.mp hmx with rfl | hmx
        · injection hv with hv
          exact le_of_eq hv.symm
        · exact absurd hv (by rw [(colMax_eq_none xs).mp hx x hmx]; exact fun hc => by cases hc)
      | some y =>
        rw [hx] at h
        injection h with h
        subst h
        rcases ih y hx with ⟨hmem, hbd⟩
        constructor
        · rcases max_choice a y with hc | hc
          · rw [hc]
            exact List.mem_cons_self _ _
          · rw [hc]
            exact List.mem_cons_of_mem _ hmem
        · intro x hmx v hv
          rcases List.mem_cons.mp hmx with rfl | hmx
          · injection hv with hv
            subst hv
            exact le_max_left _ _
          · exact le_trans (hbd x hmx v hv) (le_max_right _ _)

theorem colMin_eq_none (xs : List (Option ℚ)) : colMin xs = none ↔ ∀ x ∈ xs, x = none := by
  induction xs with
  | nil => simp [colMin]
  | cons x xs ih =>
    cases x with
    | none => simp [colMin, ih]
    | some a =>
      simp only [colMin]
      cases h : colMin xs <;> simp

theorem colMin_spec (xs : List (Option ℚ)) (m : ℚ) (h : colMin xs = some m) :
    some m ∈ xs ∧ ∀ x ∈ xs, ∀ v, x = some v → m ≤ v := by
  induction xs generalizing m with
  | nil => cases h
  | cons x xs ih =>
    cases x with
    | none =>
      simp only [colMin] at h
      rcases ih m h with ⟨hmem, hbd⟩
      refine ⟨List.mem_cons_of_mem _ hmem, ?_⟩
      intro x hx v hv
      rcases List.mem_cons.mp hx with rfl | hx
      · cases hv
      · exact hbd x hx v hv
    | some a =>
      simp only [colMin] at h
      cases hx : colMin xs with
      | none =>
        rw [hx] at h
        injection h with h
        subst h
        refine ⟨List.mem_cons_self _ _, ?_⟩
        intro x hmx v hv
        rcases List.mem_cons.mp hmx with rfl | hmx
        · injection hv with hv
          exact le_of_eq hv
        · exact absurd hv (by rw [(colMin_eq_none xs).mp hx x hmx]; exact fun hc => by cases hc)
      | some y =>
        rw [hx] at h
        injection h with h
        subst h
        rcases ih y hx with ⟨hmem, hbd⟩
        constructor
        · rcases min_choice a y with hc | hc
          · rw [hc]
            exact List.mem_cons_self _ _
          · rw [hc]
            exact List.mem_cons_of_mem _ hmem
        · intro x hmx v hv
          rcases List.mem_cons.mp hmx with rfl | hmx
          · injection hv with hv
            subst hv
            exact min_le_left _ _
          · exact le_trans (min_le_right _ _) (hbd x hmx v hv)

theorem filter_map_general {α β : Type} (f : α → β) (p : β → Bool) (q : α → Bool)
    (l : List α) (hpq : ∀ a, p (f a) = q a) :
    (l.map f).filter p = (l.filter q).map f := by
  rw [List.filter_map]
  congr 1
  exact List.filter_congr (fun a _ => hpq a)

theorem map_congr_general {α β : Type} (f g : α → β) (l : List α) (h : ∀ a, f a = g a) :
    l.map f = l.map g :=
  List.map_congr_left (fun a _ => h a)

theorem sector_df_eq (st : AppState) (sel : String) (a b : Int)
    (h : (st.companies_df.map (fun c => c.symbol)).Nodup) :
    sector_df st sel a b =
      (st.stocks_df.filter (fun r => stockRowInSector st.companies_df sel r &&
          (decide (a ≤ r.date.date.year) && decide (r.date.date.year ≤ b)))).map
        (fun r => mergeOf st.companies_df { r with date := pd_to_datetime r.date }) := by
  unfold sector_df merged_df convertStockDates
  rw [leftJoinSC_nodup _ _ h, List.map_map]
  apply filter_map_general
  intro r
  simp only [Function.comp_apply]
  rw [sector_of_mergeOf]
  simp only [mergeOf_date]
  rfl

theorem innerJoinRG_convert (stocks : List StockRow) (cs : List CompanyRow) :
    innerJoinRG (convertStockDates stocks) cs =
      (innerJoinRG stocks cs).map (fun m => { m with date := pd_to_datetime m.date }) := by
  unfold innerJoinRG convertStockDates
  rw [List.map_flatMap, List.flatMap_map]
  simp only [List.map_map]
  rfl

theorem merge_dataframes_convert (stocks : List StockRow) (cs : List CompanyRow) (y : Int) :
    merge_dataframes (convertStockDates stocks) cs y = merge_dataframes stocks cs y := by
  unfold merge_dataframes
  rw [innerJoinRG_convert, List.map_map]
  rfl

theorem leftJoinSC_append (l1 l2 : List StockRow) (cs : List CompanyRow) :
    leftJoinSC (l1 ++ l2) cs = leftJoinSC l1 cs ++ leftJoinSC l2 cs := by
  unfold leftJoinSC
  rw [List.flatMap_append]

theorem innerJoinRG_append (l1 l2 : List StockRow) (cs : List CompanyRow) :
    innerJoinRG (l1 ++ l2) cs = innerJoinRG l1 cs ++ innerJoinRG l2 cs := by
  unfold innerJoinRG
  rw [List.flatMap_append]

theorem leftJoinSC_cons_unmatched (r : StockRow) (l : List StockRow) (cs : List CompanyRow)
    (hno : cs.filter (fun c => c.symbol == r.symbol) = []) :
    leftJoinSC (r :: l) cs =
      ⟨r.symbol, r.date.date, r.openP, r.high, r.low, r.close, none, none⟩ :: leftJoinSC l cs := by
  unfold leftJoinSC
  simp only [List.flatMap_cons]
  rw [hno]
  rfl

theorem innerJoinRG_cons_unmatched (r : StockRow) (l : List StockRow) (cs : List CompanyRow)
    (hno : cs.filter (fun c => c.symbol == r.symbol) = []) :
    innerJoinRG (r :: l) cs = innerJoinRG l cs := by
  unfold innerJoinRG
  simp only [List.flatMap_cons]
  rw [hno]
  rfl

/-! ## The claims -/

/-- C1: `validate_years` returns the empty string exactly when both year texts
are 4 characters long, both parse as Python integers, both parsed years lie in
[2014, 2024] and the from-year does not exceed the to-year; in every other
case (wrong length, failed parse, out-of-range year, or from > to) it returns
one of the non-empty error messages. -/
theorem validate_years_empty_iff (from_year to_year : String) :
    validate_years from_year to_year = "" ↔
      (from_year.length = 4 ∧ to_year.length = 4 ∧
        ∃ fi ti, pyInt from_year = some fi ∧ pyInt to_year = some ti ∧
          2014 ≤ fi ∧ fi ≤ 2024 ∧ 2014 ≤ ti ∧ ti ≤ 2024 ∧ fi ≤ ti) := by
  unfold validate_years
  by_cases hlen : from_year.length ≠ 4 ∨ to_year.length ≠ 4
  · rw [if_pos hlen]
    refine iff_of_false (by decide) ?_
    rintro ⟨h1, h2, -⟩
    rcases hlen with h | h
    · exact h h1
    · exact h h2
  · rw [if_neg hlen]
    push_neg at hlen
    split
    · rename_i from_year_int to_year_int hf ht
      by_cases hr : ¬ (2014 ≤ from_year_int ∧ from_year_int ≤ 2024) ∨
          ¬ (2014 ≤ to_year_int ∧ to_year_int ≤ 2024)
      · rw [if_pos hr]
        refine iff_of_false (by decide) ?_
        rintro ⟨-, -, fi', ti', hfi', hti', hb1, hb2, hb3, hb4, -⟩
        rw [hf] at hfi'
        rw [ht] at hti'
        injection hfi' with e1
        injection hti' with e2
        subst e1
        subst e2
        rcases hr with h | h
        · exact h ⟨hb1, hb2⟩
        · exact h ⟨hb3, hb4⟩
      · rw [if_neg hr]
        push_neg at hr
        by_cases hgt : from_year_int > to_year_int
        · rw [if_pos hgt]
          refine iff_of_false (by decide) ?_
          rintro ⟨-, -, fi', ti', hfi', hti', -, -, -, -, hle⟩
          rw [hf] at hfi'
          rw [ht] at hti'
          injection hfi' with e1
          injection hti' with e2
          subst e1
          subst e2
          omega
        · rw [if_neg hgt]
          exact iff_of_true rfl
            ⟨hlen.1, hlen.2, from_year_int, to_year_int, hf, ht,
              hr.1.1, hr.1.2, hr.2.1, hr.2.2, by omega⟩
    · rename_i hnone
      refine iff_of_false (by decide) ?_
      rintro ⟨-, -, fi', ti', hfi', hti', -⟩
      exact hnone fi' ti' hfi' hti'

/-- C8: `filter_data_by_sector_and_year` changes the shared tables only by the
type conversion of the `Date` columns of the stocks and index tables: the
companies table is untouched, no row is added or removed, every column other
than the `Date` tags keeps its values, and the converted `Date` entries denote
the same calendar dates. -/
theorem filter_data_frame_effect (st : AppState) (selected_sector : String)
    (from_year to_year : Int) :
    ((filter_data_by_sector_and_year st selected_sector from_year to_year).1.companies_df =
        st.companies_df) ∧
    ((filter_data_by_sector_and_year st selected_sector from_year to_year).1.stocks_df.length =
        st.stocks_df.length) ∧
    ((filter_data_by_sector_and_year st selected_sector from_year to_year).1.stocks_df.map
        (fun r => r.symbol) = st.stocks_df.map (fun r => r.symbol)) ∧
    ((filter_data_by_sector_and_year st selected_sector from_year to_year).1.stocks_df.map
        (fun r => r.date.date) = st.stocks_df.map (fun r => r.date.date)) ∧
    ((filter_data_by_sector_and_year st selected_sector from_year to_year).1.stocks_df.map
        (fun r => r.openP) = st.stocks_df.map (fun r => r.openP)) ∧
    ((filter_data_by_sector_and_year st selected_sector from_year to_year).1.stocks_df.map
        (fun r => r.high) = st.stocks_df.map (fun r => r.high)) ∧
    ((filter_data_by_sector_and_year st selected_sector from_year to_year).1.stocks_df.map
        (fun r => r.low) = st.stocks_df.map (fun r => r.low)) ∧
    ((filter_data_by_sector_and_year st selected_sector from_year to_year).1.stocks_df.map
        (fun r => r.close) = st.stocks_df.map (fun r => r.close)) ∧
    ((filter_data_by_sector_and_year st selected_sector from_year to_year).1.index_df.length =
        st.index_df.length) ∧
    ((filter_data_by_sector_and_year st selected_sector from_year to_year).1.index_df.map
        (fun r => r.date.date) = st.index_df.map (fun r => r.date.date)) ∧
    ((filter_data_by_sector_and_year st selected_sector from_year to_year).1.index_df.map
        (fun r => r.sp500) = st.index_df.map (fun r => r.sp500)) := by
  refine ⟨rfl, ?_, ?_, ?_, ?_, ?_, ?_, ?_, ?_, ?_, ?_⟩ <;>
    simp only [filter_data_by_sector_and_year, convertStockDates, convertIndexDates,
      List.map_map, List.length_map] <;> rfl

/-- C9: the Analyze computations are stateless and idempotent.  Running
`filter_data_by_sector_and_year` a second time, from the state its first run
left behind, returns the same two series and the same state; and
`merge_dataframes` over the (possibly already converted) shared tables returns
the same rows as over the original tables. -/
theorem analyses_stateless_idempotent (st : AppState) (selected_sector : String)
    (from_year to_year selected_year : Int) :
    ((filter_data_by_sector_and_year
        (filter_data_by_sector_and_year st selected_sector from_year to_year).1
        selected_sector from_year to_year).2.1 =
      (filter_data_by_sector_and_year st selected_sector from_year to_year).2.1) ∧
    ((filter_data_by_sector_and_year
        (filter_data_by_sector_and_year st selected_sector from_year to_year).1
        selected_sector from_year to_year).2.2 =
      (filter_data_by_sector_and_year st selected_sector from_year to_year).2.2) ∧
    ((filter_data_by_sector_and_year
        (filter_data_by_sector_and_year st selected_sector from_year to_year).1
        selected_sector from_year to_year).1 =
      (filter_data_by_sector_and_year st selected_sector from_year to_year).1) ∧
    (merge_dataframes
        (filter_data_by_sector_and_year st selected_sector from_year to_year).1.stocks_df
        (filter_data_by_sector_and_year st selected_sector from_year to_year).1.companies_df
        selected_year =
      merge_dataframes st.stocks_df st.companies_df selected_year) := by
  refine ⟨?_, ?_, ?_, ?_⟩
  · simp only [filter_data_by_sector_and_year, sector_performance, sector_df, merged_df,
      convertStockDates_idem]
  · simp only [filter_data_by_sector_and_year, index_performance, convertIndexDates_idem]
  · simp only [filter_data_by_sector_and_year, convertStockDates_idem, convertIndexDates_idem]
  · simp only [filter_data_by_sector_and_year]
    exact merge_dataframes_convert _ _ _

/-- C2: for a valid year range, both series returned by
`filter_data_by_sector_and_year` (the sector mean-Close series and the S&P500
index series) contain only dates whose calendar year lies in the inclusive
range [from_year, to_year]. -/
theorem sector_filter_in_range (st : AppState) (selected_sector : String)
    (from_year to_year : Int) (_h1 : 2014 ≤ from_year) (_h2 : from_year ≤ to_year)
    (_h3 : to_year ≤ 2024) :
    (∀ d v, (d, v) ∈ (filter_data_by_sector_and_year st selected_sector from_year to_year).2.1 →
        from_year ≤ d.year ∧ d.year ≤ to_year) ∧
    (∀ d v, (d, v) ∈ (filter_data_by_sector_and_year st selected_sector from_year to_year).2.2 →
        from_year ≤ d.year ∧ d.year ≤ to_year) := by
  constructor
  · intro d v hmem
    have hmem' : (d, v) ∈
        groupbyDateMeanClose (sector_df st selected_sector from_year to_year) := hmem
    rcases (mem_groupbyDateMeanClose hmem').1 with ⟨m, hm, hmd⟩
    unfold sector_df at hm
    have hcond := (List.mem_filter.mp hm).2
    simp only [Bool.and_eq_true, decide_eq_true_eq] at hcond
    exact ⟨by rw [← hmd]; exact hcond.2.1, by rw [← hmd]; exact hcond.2.2⟩
  · intro d v hmem
    have hmem' : (d, v) ∈ index_performance st from_year to_year := hmem
    unfold index_performance at hmem'
    rcases List.mem_map.mp hmem' with ⟨r, hr, heq⟩
    have hd : r.date.date = d := congrArg Prod.fst heq
    have hcond := (List.mem_filter.mp hr).2
    simp only [Bool.and_eq_true, decide_eq_true_eq] at hcond
    exact ⟨by rw [← hd]; exact hcond.1, by rw [← hd]; exact hcond.2⟩

/-- C3: when company symbols are duplicate-free (the data model's "one record
per Symbol"), the sector series is indexed by date, has one entry per distinct
trading date with at least one stock row of the selected sector in the year
range, and carries at each such date the mean of those rows' Close values. -/
theorem sector_series_shape (st : AppState) (selected_sector : String)
    (from_year to_year : Int)
    (h : (st.companies_df.map (fun c => c.symbol)).Nodup) :
    ((filter_data_by_sector_and_year st selected_sector from_year to_year).2.1.length =
      ((st.stocks_df.filter (fun r => stockRowInSector st.companies_df selected_sector r &&
          (decide (from_year ≤ r.date.date.year) && decide (r.date.date.year ≤ to_year)))).map
        (fun r => r.date.date)).dedup.length) ∧
    (∀ d v, (d, v) ∈ (filter_data_by_sector_and_year st selected_sector from_year to_year).2.1 →
      v = listMean ((st.stocks_df.filter (fun r =>
          (stockRowInSector st.companies_df selected_sector r &&
            (decide (from_year ≤ r.date.date.year) && decide (r.date.date.year ≤ to_year))) &&
          r.date.date == d)).map (fun r => r.close))) := by
  have hsd := sector_df_eq st selected_sector from_year to_year h
  have hdates : (sector_df st selected_sector from_year to_year).map (fun m => m.date) =
      (st.stocks_df.filter (fun r => stockRowInSector st.companies_df selected_sector r &&
          (decide (from_year ≤ r.date.date.year) && decide (r.date.date.year ≤ to_year)))).map
        (fun r => r.date.date) := by
    rw [hsd, List.map_map]
    apply map_congr_general
    intro r
    simp only [Function.comp_apply, mergeOf_date]
    rfl
  constructor
  · show (groupbyDateMeanClose (sector_df st selected_sector from_year to_year)).length = _
    unfold groupbyDateMeanClose
    rw [List.length_map, List.length_mergeSort, hdates]
  · intro d v hmem
    have hmem' : (d, v) ∈
        groupbyDateMeanClose (sector_df st selected_sector from_year to_year) := hmem
    have hv := (mem_groupbyDateMeanClose hmem').2
    have hstep : (sector_df st selected_sector from_year to_year).filter
        (fun m => m.date == d) =
        (st.stocks_df.filter (fun r =>
          (stockRowInSector st.companies_df selected_sector r &&
            (decide (from_year ≤ r.date.date.year) && decide (r.date.date.year ≤ to_year))) &&
          r.date.date == d)).map
          (fun r => mergeOf st.companies_df { r with date := pd_to_datetime r.date }) := by
      rw [hsd]
      rw [filter_map_general _ _ (fun r => r.date.date == d) _
        (fun r => by simp only [mergeOf_date]; rfl)]
      rw [List.filter_filter]
      congr 1
      exact List.filter_congr (fun a _ => Bool.and_comm _ _)
    rw [hv, hstep, List.map_map]
    congr 1
    apply map_congr_general
    intro r
    simp only [Function.comp_apply, mergeOf_close]

theorem flatMap_sublist_map {α β : Type} (g : α → List β) (k : α → β)
    (hg : ∀ a, g a = [] ∨ g a = [k a]) (l : List α) :
    (l.flatMap g).Sublist (l.map k) := by
  induction l with
  | nil => simp
  | cons a l ih =>
    simp only [List.flatMap_cons, List.map_cons]
    rcases hg a with hga | hga
    · rw [hga]
      simp only [List.nil_append]
      exact ih.cons _
    · rw [hga]
      exact ih.cons₂ _

/-- C7: `merge_dataframes` returns exactly the Symbol-joined stock/company
rows whose `Date` falls in the selected year (with the merged copy's `Date`
column converted), and, when there is one company record per Symbol and one
stock row per (Symbol, Date), the result has one row per (Symbol, Date). -/
theorem merge_dataframes_exact_rows (stocks : List StockRow) (cs : List CompanyRow)
    (selected_year : Int) :
    (merge_dataframes stocks cs selected_year =
      (stocks.filter (fun r => r.date.date.year == selected_year)).flatMap (fun r =>
        (cs.filter (fun c => c.symbol == r.symbol)).map (fun c =>
          ⟨r.symbol, pd_to_datetime r.date, r.openP, r.high, r.low, r.close,
            c.sector, c.shortname, c.revenuegrowth⟩))) ∧
    ((cs.map (fun c => c.symbol)).Nodup →
      (stocks.map (fun r => (r.symbol, r.date.date))).Nodup →
      ((merge_dataframes stocks cs selected_year).map
        (fun m => (m.symbol, m.date.date))).Nodup) := by
  have key : ∀ l : List StockRow,
      merge_dataframes l cs selected_year =
        (l.filter (fun r => r.date.date.year == selected_year)).flatMap (fun r =>
          (cs.filter (fun c => c.symbol == r.symbol)).map (fun c =>
            ⟨r.symbol, pd_to_datetime r.date, r.openP, r.high, r.low, r.close,
              c.sector, c.shortname, c.revenuegrowth⟩)) := by
    intro l
    induction l with
    | nil => rfl
    | cons r l ih =>
      have hsplit : merge_dataframes (r :: l) cs selected_year =
          ((((cs.filter (fun c => c.symbol == r.symbol)).map (fun c =>
              (⟨r.symbol, r.date, r.openP, r.high, r.low, r.close,
                c.sector, c.shortname, c.revenuegrowth⟩ : RGRow))).map
            (fun m => { m with date := pd_to_datetime m.date })).filter
            (fun m => m.date.date.year == selected_year)) ++
            merge_dataframes l cs selected_year := by
        unfold merge_dataframes innerJoinRG
        simp only [List.flatMap_cons, List.map_append, List.filter_append]
      rw [hsplit, ih, List.map_map]
      have hh := filter_map_general
        ((fun m : RGRow =>
          ({ symbol := m.symbol, date := pd_to_datetime m.date, openP := m.openP,
             high := m.high, low := m.low, close := m.close, sector := m.sector,
             shortname := m.shortname, revenuegrowth := m.revenuegrowth } : RGRow)) ∘
          (fun c : CompanyRow =>
          (⟨r.symbol, r.date, r.openP, r.high, r.low, r.close,
            c.sector, c.shortname, c.revenuegrowth⟩ : RGRow)))
        (fun m : RGRow => m.date.date.year == selected_year)
        (fun _ : CompanyRow => r.date.date.year == selected_year)
        (cs.filter (fun c => c.symbol == r.symbol))
        (fun c => rfl)
      rw [hh]
      cases hyr : r.date.date.year == selected_year
      · have hcons : (r :: l).filter (fun r => r.date.date.year == selected_year) =
            l.filter (fun r => r.date.date.year == selected_year) :=
          List.filter_cons_of_neg (by simp [hyr])
        rw [List.filter_false, hcons]
        simp only [List.map_nil, List.nil_append]
      · have hcons : (r :: l).filter (fun r => r.date.date.year == selected_year) =
            r :: l.filter (fun r => r.date.date.year == selected_year) :=
          List.filter_cons_of_pos hyr
        rw [List.filter_true, hcons]
        simp only [List.flatMap_cons]
        rfl
  constructor
  · exact key stocks
  · intro hcs hst
    rw [key stocks, List.map_flatMap]
    have hG : ∀ r : StockRow,
        ((cs.filter (fun c => c.symbol == r.symbol)).map (fun c =>
            (⟨r.symbol, pd_to_datetime r.date, r.openP, r.high, r.low, r.close,
              c.sector, c.shortname, c.revenuegrowth⟩ : RGRow))).map
          (fun m => (m.symbol, m.date.date)) = [] ∨
        ((cs.filter (fun c => c.symbol == r.symbol)).map (fun c =>
            (⟨r.symbol, pd_to_datetime r.date, r.openP, r.high, r.low, r.close,
              c.sector, c.shortname, c.revenuegrowth⟩ : RGRow))).map
          (fun m => (m.symbol, m.date.date)) = [(r.symbol, r.date.date)] := by
      intro r
      rw [filter_symbol_nodup cs r.symbol hcs]
      cases cs.find? (fun c => c.symbol == r.symbol)
      · exact Or.inl rfl
      · exact Or.inr rfl
    have hsub := flatMap_sublist_map _ (fun r => (r.symbol, r.date.date)) hG
      (stocks.filter (fun r => r.date.date.year == selected_year))
    have hsub2 : ((stocks.filter (fun r => r.date.date.year == selected_year)).map
        (fun r => (r.symbol, r.date.date))).Sublist
        (stocks.map (fun r => (r.symbol, r.date.date))) :=
      (List.filter_sublist _).map _
    exact ((hsub.trans hsub2).nodup hst)

/-- Dropping a stock row whose symbol matches no company record does not
change the sector view's filtered frame. -/
theorem sector_filter_unmatched (stocks1 stocks2 : List StockRow) (r : StockRow)
    (cs : List CompanyRow) (sel : String) (a b : Int)
    (hno : cs.filter (fun c => c.symbol == r.symbol) = []) :
    ((leftJoinSC (convertStockDates (stocks1 ++ r :: stocks2)) cs).filter
      (fun m => (m.sector == some sel) &&
        (decide (a ≤ m.date.year) && decide (m.date.year ≤ b)))) =
    ((leftJoinSC (convertStockDates (stocks1 ++ stocks2)) cs).filter
      (fun m => (m.sector == some sel) &&
        (decide (a ≤ m.date.year) && decide (m.date.year ≤ b)))) := by
  unfold convertStockDates
  rw [List.map_append, List.map_cons, List.map_append]
  rw [leftJoinSC_append, leftJoinSC_append]
  rw [List.filter_append, List.filter_append]
  congr 1
  rw [leftJoinSC_cons_unmatched
    ({ symbol := r.symbol, date := pd_to_datetime r.date, openP := r.openP,
       high := r.high, low := r.low, close := r.close } : StockRow) _ _ hno]
  rw [List.filter_cons_of_neg Bool.false_ne_true]

/-- C10: a stock row whose Symbol has no company record never contributes to
an analysis output: removing it from the stocks table changes neither the
sector view's mean-Close series (its left-merged row gets a missing Sector and
is dropped by the sector filter) nor the revenue view's merged frame (the
inner join drops it). -/
theorem unmatched_symbol_never_contributes (st : AppState) (pre post : List StockRow)
    (r : StockRow) (selected_sector : String) (from_year to_year selected_year : Int)
    (hstocks : st.stocks_df = pre ++ r :: post)
    (hno : st.companies_df.filter (fun c => c.symbol == r.symbol) = []) :
    ((filter_data_by_sector_and_year st selected_sector from_year to_year).2.1 =
      (filter_data_by_sector_and_year { st with stocks_df := pre ++ post }
        selected_sector from_year to_year).2.1) ∧
    (merge_dataframes st.stocks_df st.companies_df selected_year =
      merge_dataframes (pre ++ post) st.companies_df selected_year) := by
  constructor
  · show sector_performance st selected_sector from_year to_year =
      sector_performance { st with stocks_df := pre ++ post } selected_sector from_year to_year
    unfold sector_performance
    refine congrArg groupbyDateMeanClose ?_
    unfold sector_df merged_df
    rw [hstocks]
    exact sector_filter_unmatched pre post r st.companies_df selected_sector
      from_year to_year hno
  · rw [hstocks]
    unfold merge_dataframes
    rw [innerJoinRG_append, innerJoinRG_cons_unmatched _ _ _ hno, ← innerJoinRG_append]

/-- C5: `filter_stock_data` resolves the company short name to the Symbol of
the first matching company record and filters the stock rows to that
symbol/month/year; when no company record matches, `.values[0]` raises an
unhandled IndexError instead of returning a result (modelled as `none`). -/
theorem filter_stock_data_first_match (stock_df : List StockRow)
    (companies_df : List CompanyRow) (company_shortname : String) (month year : Int) :
    filter_stock_data stock_df companies_df company_shortname month year =
      (companies_df.find? (fun c => c.shortname == company_shortname)).map (fun c =>
        stock_df.filter (fun r =>
          r.symbol == c.symbol &&
            (decide (r.date.date.month = month) && decide (r.date.date.year = year)))) := by
  unfold filter_stock_data
  rw [head?_filter]
  cases companies_df.find? (fun c => c.shortname == company_shortname) <;> rfl

/-- C6: in the monthly view, the high annotation appears exactly when the
`High` column of the filtered window has a non-missing value, and then its y
value is the maximum `High` (attained, and an upper bound); symmetrically the
low annotation appears exactly when `Low` has a non-missing value, with the
minimum `Low` as its value; and the figure's annotations are exactly these
two optional marks. -/
theorem monthly_marks_shape (filtered_stock : List StockRow) :
    (high_mark filtered_stock (colMax (filtered_stock.map (fun r => r.high))) ≠ [] ↔
      ∃ r ∈ filtered_stock, r.high.isSome = true) ∧
    (∀ a ∈ high_mark filtered_stock (colMax (filtered_stock.map (fun r => r.high))),
      (∃ r ∈ filtered_stock, r.high = some a.y) ∧
        ∀ r ∈ filtered_stock, ∀ v, r.high = some v → v ≤ a.y) ∧
    (low_mark filtered_stock (colMin (filtered_stock.map (fun r => r.low))) ≠ [] ↔
      ∃ r ∈ filtered_stock, r.low.isSome = true) ∧
    (∀ a ∈ low_mark filtered_stock (colMin (filtered_stock.map (fun r => r.low))),
      (∃ r ∈ filtered_stock, r.low = some a.y) ∧
        ∀ r ∈ filtered_stock, ∀ v, r.low = some v → a.y ≤ v) ∧
    (plot_stock_prices_marks filtered_stock =
      high_mark filtered_stock (colMax (filtered_stock.map (fun r => r.high))) ++
        low_mark filtered_stock (colMin (filtered_stock.map (fun r => r.low)))) := by
  refine ⟨?_, ?_, ?_, ?_, rfl⟩
  · unfold high_mark
    by_cases hany : filtered_stock.any (fun r => r.high.isSome) = true
    · rw [if_pos hany]
      rcases List.any_eq_true.mp hany with ⟨r0, hr0, hr0s⟩
      cases hcm : colMax (filtered_stock.map (fun r => r.high)) with
      | none =>
        rcases Option.isSome_iff_exists.mp hr0s with ⟨v0, hv0⟩
        have := (colMax_eq_none _).mp hcm (some v0)
          (by rw [← hv0]; exact List.mem_map_of_mem _ hr0)
        cases this
      | some m =>
        rcases List.mem_map.mp (colMax_spec _ m hcm).1 with ⟨rm, hrm, hrmv⟩
        cases hfd : filtered_stock.find? (fun r => r.high == some m) with
        | none =>
          have := List.find?_eq_none.mp hfd rm hrm
          rw [hrmv] at this
          simp at this
        | some rf =>
          exact iff_of_true (by simp) ⟨r0, hr0, hr0s⟩
    · rw [if_neg hany]
      refine iff_of_false (by simp) ?_
      rintro ⟨r0, hr0, hr0s⟩
      exact hany (List.any_eq_true.mpr ⟨r0, hr0, hr0s⟩)
  · intro a ha
    unfold high_mark at ha
    split at ha
    · split at ha
      · rename_i m rf hcm hfd
        rcases List.mem_singleton.mp ha with rfl
        rcases List.mem_map.mp (colMax_spec _ m hcm).1 with ⟨rm, hrm, hrmv⟩
        refine ⟨⟨rm, hrm, hrmv⟩, ?_⟩
        intro r hr v hv
        exact (colMax_spec _ m hcm).2 (r.high) (List.mem_map_of_mem _ hr) v hv
      · cases ha
    · cases ha
  · unfold low_mark
    by_cases hany : filtered_stock.any (fun r => r.low.isSome) = true
    · rw [if_pos hany]
      rcases List.any_eq_true.mp hany with ⟨r0, hr0, hr0s⟩
      cases hcm : colMin (filtered_stock.map (fun r => r.low)) with
      | none =>
        rcases Option.isSome_iff_exists.mp hr0s with ⟨v0, hv0⟩
        have := (colMin_eq_none _).mp hcm (some v0)
          (by rw [← hv0]; exact List.mem_map_of_mem _ hr0)
        cases this
      | some m =>
        rcases List.mem_map.mp (colMin_spec _ m hcm).1 with ⟨rm, hrm, hrmv⟩
        cases hfd : filtered_stock.find? (fun r => r.low == some m) with
        | none =>
          have := List.find?_eq_none.mp hfd rm hrm
          rw [hrmv] at this
          simp at this
        | some rf =>
          exact iff_of_true (by simp) ⟨r0, hr0, hr0s⟩
    · rw [if_neg hany]
      refine iff_of_false (by simp) ?_
      rintro ⟨r0, hr0, hr0s⟩
      exact hany (List.any_eq_true.mpr ⟨r0, hr0, hr0s⟩)
  · intro a ha
    unfold low_mark at ha
    split at ha
    · split at ha
      · rename_i m rf hcm hfd
        rcases List.mem_singleton.mp ha with rfl
        rcases List.mem_map.mp (colMin_spec _ m hcm).1 with ⟨rm, hrm, hrmv⟩
        refine ⟨⟨rm, hrm, hrmv⟩, ?_⟩
        intro r hr v hv
        exact (colMin_spec _ m hcm).2 (r.low) (List.mem_map_of_mem _ hr) v hv
      · cases ha
    · cases ha

/-- C4 (counterexample): the sector view has no emptiness check.  On a state
with no stock rows, valid years "2014"-"2014" filter to an empty series, yet
`perform_sector_analysis` still produces a plot action (an empty chart), not
a "No Data" notice. -/
theorem sector_view_plots_on_empty :
    (filter_data_by_sector_and_year ⟨[], [wCompany], []⟩ "Technology" 2014 2014).2.1 = [] ∧
    ((perform_sector_analysis ⟨[], [wCompany], []⟩ "Technology" "2014" "2014").2).isPlot
      = true := by
  constructor
  · show groupbyDateMeanClose (sector_df ⟨[], [wCompany], []⟩ "Technology" 2014 2014) = []
    rw [show sector_df ⟨[], [wCompany], []⟩ "Technology" 2014 2014 = [] from rfl]
    unfold groupbyDateMeanClose
    simp
  · rfl

/-- C4 (amended): in the revenue-growth and monthly views, the user gets the
"No Data" notice exactly when filtering yields no rows, and a chart exactly
when it yields rows; the sector view (see the counterexample) plots
unconditionally once validation passes. -/
theorem no_data_outcomes (stocks : List StockRow) (cs : List CompanyRow)
    (selected_year : Int) (stock_df : List StockRow) (companies_df : List CompanyRow)
    (company_shortname : String) (month year : Int) :
    ((perform_analysis stocks cs selected_year).isNoData = true ↔
      merge_dataframes stocks cs selected_year = []) ∧
    ((perform_analysis stocks cs selected_year).isPlot = true ↔
      merge_dataframes stocks cs selected_year ≠ []) ∧
    (∀ filtered, filter_stock_data stock_df companies_df company_shortname month year =
        some filtered →
      (((analyze_stock stock_df companies_df company_shortname month year).isNoData = true ↔
          filtered = []) ∧
       ((analyze_stock stock_df companies_df company_shortname month year).isPlot = true ↔
          filtered ≠ []))) := by
  refine ⟨?_, ?_, ?_⟩
  · unfold perform_analysis
    by_cases hm : merge_dataframes stocks cs selected_year = []
    · simp [hm, RevenueOutcome.isNoData]
    · simp [hm, RevenueOutcome.isNoData]
  · unfold perform_analysis
    by_cases hm : merge_dataframes stocks cs selected_year = []
    · simp [hm, RevenueOutcome.isPlot]
    · simp [hm, RevenueOutcome.isPlot]
  · intro filtered hf
    unfold analyze_stock
    rw [hf]
    by_cases hfe : filtered = []
    · simp [hfe, MonthlyOutcome.isNoData, MonthlyOutcome.isPlot]
    · simp [hfe, MonthlyOutcome.isNoData, MonthlyOutcome.isPlot]

/-- Witness for C2: the range hypotheses hold at 2020-2021 and the theorem
applies at the concrete state `wSt`. -/
theorem sector_filter_in_range_witness :
    ((2014:Int) ≤ 2020 ∧ (2020:Int) ≤ 2021 ∧ (2021:Int) ≤ 2024) ∧
    ((∀ d v, (d, v) ∈ (filter_data_by_sector_and_year wSt "Technology" 2020 2021).2.1 →
        2020 ≤ d.year ∧ d.year ≤ 2021) ∧
     (∀ d v, (d, v) ∈ (filter_data_by_sector_and_year wSt "Technology" 2020 2021).2.2 →
        2020 ≤ d.year ∧ d.year ≤ 2021)) :=
  ⟨⟨by decide, by decide, by decide⟩,
    sector_filter_in_range wSt "Technology" 2020 2021 (by decide) (by decide) (by decide)⟩

/-- Witness for C3: `wSt` has duplicate-free company symbols, and the series
for Technology over 2014-2024 has exactly the two distinct AAPL trading
dates. -/
theorem sector_series_shape_witness :
    (wSt.companies_df.map (fun c => c.symbol)).Nodup ∧
    (filter_data_by_sector_and_year wSt "Technology" 2014 2024).2.1.length = 2 :=
  ⟨by decide,
    ((sector_series_shape wSt "Technology" 2014 2024 (by decide)).1).trans (by decide)⟩

/-- Witness for C7: with `wSt`'s duplicate-free tables the merged frame for
2020 has duplicate-free (Symbol, Date) keys. -/
theorem merge_dataframes_exact_rows_witness :
    (wSt.companies_df.map (fun c => c.symbol)).Nodup ∧
    (wSt.stocks_df.map (fun r => (r.symbol, r.date.date))).Nodup ∧
    ((merge_dataframes wSt.stocks_df wSt.companies_df 2020).map
      (fun m => (m.symbol, m.date.date))).Nodup :=
  ⟨by decide, by decide,
    (merge_dataframes_exact_rows wSt.stocks_df wSt.companies_df 2020).2
      (by decide) (by decide)⟩

/-- Witness for C10: dropping the unlisted MSFT row from the middle of
`wSt3`'s stocks leaves the Technology series unchanged. -/
theorem unmatched_symbol_never_contributes_witness :
    ([wCompany].filter (fun c => c.symbol == wStock3.symbol) = []) ∧
    ((filter_data_by_sector_and_year wSt3 "Technology" 2014 2024).2.1 =
      (filter_data_by_sector_and_year { wSt3 with stocks_df := [wStock1] ++ [wStock2] }
        "Technology" 2014 2024).2.1) :=
  ⟨by decide,
    (unmatched_symbol_never_contributes wSt3 [wStock1] [wStock2] wStock3 "Technology"
      2014 2024 2020 rfl (by decide)).1⟩

/-- Witness for C4 (amended): with no stock rows at all both views report
"No Data" (the monthly lookup still resolves "Apple"). -/
theorem no_data_outcomes_witness :
    filter_stock_data [] [wCompany] "Apple" 1 2020 = some [] ∧
    (analyze_stock [] [wCompany] "Apple" 1 2020).isNoData = true ∧
    (perform_analysis [] [wCompany] 2020).isNoData = true := by
  refine ⟨by decide, ?_, ?_⟩
  · exact ((no_data_outcomes [] [wCompany] 2020 [] [wCompany] "Apple" 1 2020).2.2 []
      (by decide)).1.mpr rfl
  · exact ((no_data_outcomes [] [wCompany] 2020 [] [wCompany] "Apple" 1 2020).1).mpr rfl

/-- Witness for C6: on the one-row window `[wStock1]` both annotations are
present. -/
theorem monthly_marks_shape_witness :
    (high_mark [wStock1] (colMax ([wStock1].map (fun r => r.high))) ≠ []) ∧
    (∃ r ∈ [wStock1], r.high = some 12) ∧
    (low_mark [wStock1] (colMin ([wStock1].map (fun r => r.low))) ≠ []) := by
  refine ⟨?_, ⟨wStock1, by decide, by decide⟩, ?_⟩
  · exact (monthly_marks_shape [wStock1]).1.mpr ⟨wStock1, by decide, by decide⟩
  · exact (monthly_marks_shape [wStock1]).2.2.1.mpr ⟨wStock1, by decide, by decide⟩
